import Mathlib

/-!
# Verification of the InvisibleBoundaryEngine hand-pose evaluator

A shallow embedding of `InvisibleBoundaryEngine.js` (the dynamic, per-frame
hand-pose evaluator of the HandHero repository) together with theorems that
settle the specification claims about it.

Modelling conventions:
* JavaScript numbers are modelled as real numbers (`ℝ`); `Math.hypot` is the
  Euclidean norm via `Real.sqrt`; `Math.min` is `min`.  Division is Mathlib's
  total field division (`x / 0 = 0`), which makes every evaluator a total
  function; the range/zone invariants are proved for all real inputs, the
  degenerate (zero hand-length / hand-width) frames included.
* A full landmark snapshot is a function `Fin 21 → Point` (the engine's data
  model requires exactly 21 anatomically ordered points).  The dispatcher
  `evaluate` receives a raw, possibly null / short `Option (List Point)` and
  performs the source's length check before handing a total snapshot to the
  strategies.  The raw-list variant `getHandFrameL` of the frame computation
  models out-of-range element access (JS `undefined`, whose field access
  throws) with `Option`.
* Boolean flags stored in result objects are `Bool`; result fields computed by
  comparing real scores (`passed`) are `Prop`.  Fields that a source branch
  does not assign (and that JS therefore reads as the falsy `undefined`) are
  set to `false` / `0` / `""`; the `finger` / `fingerIndex` / `isTarget`
  labels that the strategies patch onto classifier results post-hoc are
  initialised in the classifiers and overwritten at the call sites, mirroring
  the JS mutation.
* The boundary record field `end` of the source is renamed `stop` (`end` is a
  Lean keyword).  JS `Array.prototype.sort` on numbers is modelled by
  `List.insertionSort (· ≤ ·)` (extensionally the same ascending sort).
-/

noncomputable section

open scoped Classical

/-- The four discrete accuracy zones of the engine (`ZONE` in the source). -/
inductive Zone
  | GREEN
  | BLUE
  | YELLOW
  | RED
deriving DecidableEq

/-- A landmark / 3D point `{x, y, z}`; an absent `z` is the source's
`(p.z || 0)`, i.e. `0`. -/
structure Point where
  x : ℝ
  y : ℝ
  z : ℝ

/-- `distance(p1, p2)`: 3D Euclidean distance (`Math.hypot` of the three
coordinate differences). -/
def distance (p1 p2 : Point) : ℝ :=
  Real.sqrt ((p1.x - p2.x) ^ 2 + (p1.y - p2.y) ^ 2 + (p1.z - p2.z) ^ 2)

/-- A full landmark snapshot: exactly 21 anatomically ordered points. -/
def Lm : Type := Fin 21 → Point

/-- The derived hand reference frame (`getHandFrame` result shape). -/
structure HandFrame where
  wrist : Point
  handLength : ℝ
  handWidth : ℝ
  palmCenter : Point

/-- `getHandFrame(landmarks)` on a full 21-point snapshot: wrist, hand length
(wrist to middle fingertip), hand width (index MCP to pinky MCP), palm center
(mean of wrist and the four finger MCPs; its `z` is absent in the source and
reads as `0`). -/
def getHandFrame (lm : Lm) : HandFrame :=
  { wrist := lm 0
    handLength := distance (lm 0) (lm 12)
    handWidth := distance (lm 5) (lm 17)
    palmCenter :=
      { x := ((lm 0).x + (lm 5).x + (lm 9).x + (lm 13).x + (lm 17).x) / 5
        y := ((lm 0).y + (lm 5).y + (lm 9).y + (lm 13).y + (lm 17).y) / 5
        z := 0 } }

/-- `getHandFrame` on the raw landmark array, as the source function actually
receives it: element access is `l[i]?`, and a missing element (JS `undefined`,
whose subsequent `.x` access throws a `TypeError`) makes the whole computation
fail (`none`).  The indices read are 0, 12, 5, 17 (the named joints) and
9, 13 (inside `palmCenter`). -/
def getHandFrameL (l : List Point) : Option HandFrame :=
  (l[0]?).bind fun wrist =>
    (l[12]?).bind fun middleTip =>
      (l[5]?).bind fun indexMcp =>
        (l[17]?).bind fun pinkyMcp =>
          (l[9]?).bind fun middleMcp =>
            (l[13]?).bind fun ringMcp =>
              some
                { wrist := wrist
                  handLength := distance wrist middleTip
                  handWidth := distance indexMcp pinkyMcp
                  palmCenter :=
                    { x := (wrist.x + indexMcp.x + middleMcp.x + ringMcp.x + pinkyMcp.x) / 5
                      y := (wrist.y + indexMcp.y + middleMcp.y + ringMcp.y + pinkyMcp.y) / 5
                      z := 0 } }

/-- `getYOnLine(x, lineStart, lineEnd)`: the `y` of a line at abscissa `x`;
near-vertical lines (|Δx| < 0.0001) yield the constant average `y`. -/
def getYOnLine (x : ℝ) (lineStart lineEnd : Point) : ℝ :=
  if |lineEnd.x - lineStart.x| < 0.0001 then (lineStart.y + lineEnd.y) / 2
  else lineStart.y + ((lineEnd.y - lineStart.y) / (lineEnd.x - lineStart.x)) * (x - lineStart.x)

/-- `isAboveLine(point, lineStart, lineEnd)`: lower `y` = above in screen
coordinates. -/
def isAboveLine (point lineStart lineEnd : Point) : Prop :=
  point.y < getYOnLine point.x lineStart lineEnd

/-- One entry of the `FINGER_NODES` table. -/
structure FingerNodes where
  name : String
  mcp : Fin 21
  pip : Fin 21
  dip : Fin 21
  tip : Fin 21

/-- The `FINGER_NODES` table: finger index (0 = thumb … 4 = pinky) to the
MediaPipe node indices of its four joints. -/
def fingerNodes : Fin 5 → FingerNodes
  | 0 => ⟨"thumb", 1, 2, 3, 4⟩
  | 1 => ⟨"index", 5, 6, 7, 8⟩
  | 2 => ⟨"middle", 9, 10, 11, 12⟩
  | 3 => ⟨"ring", 13, 14, 15, 16⟩
  | 4 => ⟨"pinky", 17, 18, 19, 20⟩

/-- `FINGER_NAMES[i]` (agrees with `FINGER_NODES[i].name`). -/
def fingerName (i : Fin 5) : String := (fingerNodes i).name

/-- The `ALL_TIPS` table of tip node indices. -/
def allTips : List ℕ := [4, 8, 12, 16, 20]

/-- A boundary line (`BoundaryLine` in the spec).  `stop` is the source's
`end` field (a Lean keyword).  Single-finger boundaries carry a
`referenceNode`; the spanning boundaries of a multi-target selection do not. -/
structure Boundary where
  start : Point
  stop : Point
  level : String
  referenceNode : Option (Fin 21)

/-- The triple of boundaries returned by the boundary constructors. -/
structure Boundaries where
  greenBoundary : Boundary
  acceptableBoundary : Boundary
  lowBoundary : Boundary

/-- `createBoundaryForFinger(fingerIdx, landmarks, frame)`: three horizontal
lines at the finger's PIP (GREEN), DIP (ACCEPTABLE) and MCP (LOW) levels,
extended ±1.5 hand widths in `x`.  The constructed `{x, y}` endpoints have no
`z` in the source; `z := 0` here (never read). -/
def createBoundaryForFinger (fingerIdx : Fin 5) (lm : Lm) (frame : HandFrame) : Boundaries :=
  let nodes := fingerNodes fingerIdx
  let pip := lm nodes.pip
  let dip := lm nodes.dip
  let mcp := lm nodes.mcp
  let lineExtent := frame.handWidth * 1.5
  { greenBoundary :=
      ⟨⟨pip.x - lineExtent, pip.y, 0⟩, ⟨pip.x + lineExtent, pip.y, 0⟩, "GREEN", some nodes.pip⟩
    acceptableBoundary :=
      ⟨⟨dip.x - lineExtent, dip.y, 0⟩, ⟨dip.x + lineExtent, dip.y, 0⟩, "ACCEPTABLE", some nodes.dip⟩
    lowBoundary :=
      ⟨⟨mcp.x - lineExtent, mcp.y, 0⟩, ⟨mcp.x + lineExtent, mcp.y, 0⟩, "LOW", some nodes.mcp⟩ }

/-- `createBoundariesForTargets(targetFingers, landmarks, frame)`: no target →
middle-finger fallback; one target → that finger's horizontal boundaries; two
or more targets → sort ascending and connect the same-tier joints of the two
extreme targets.  The `headD`/`getLastD` defaults are unreachable (the sorted
list of a nonempty list is nonempty), mirroring `sorted[0]` /
`sorted[length-1]`. -/
def createBoundariesForTargets (targetFingers : List (Fin 5)) (lm : Lm) (frame : HandFrame) :
    Boundaries :=
  match targetFingers with
  | [] => createBoundaryForFinger 2 lm frame
  | [f] => createBoundaryForFinger f lm frame
  | a :: b :: rest =>
    let sortedTargets := (a :: b :: rest).insertionSort (· ≤ ·)
    let leftFinger := sortedTargets.headD a
    let rightFinger := sortedTargets.getLastD a
    let leftN := fingerNodes leftFinger
    let rightN := fingerNodes rightFinger
    { greenBoundary := ⟨lm leftN.pip, lm rightN.pip, "GREEN", none⟩
      acceptableBoundary := ⟨lm leftN.dip, lm rightN.dip, "ACCEPTABLE", none⟩
      lowBoundary := ⟨lm leftN.mcp, lm rightN.mcp, "LOW", none⟩ }

/-- Result of `evaluateTargetFinger`.  `finger` / `fingerIndex` / `isTarget`
are attached by the strategies after the call (JS mutation); the classifier
leaves them at `"" / 0 / false`. -/
structure TFResult where
  zone : Zone
  score : ℝ
  extended : Bool
  detail : String
  finger : String
  fingerIndex : ℕ
  isTarget : Bool

/-- `evaluateTargetFinger(fingerIdx, landmarks, frame)`: four-tier target
extension check on `normalizedExtension = (MCP.y − TIP.y)/handLength` and
`extensionRatio = dist(tip,wrist)/dist(mcp,wrist)` (the unused `tipAboveDip` /
`tipAbovePip` locals of the source are omitted). -/
def evaluateTargetFinger (fingerIdx : Fin 5) (lm : Lm) (frame : HandFrame) : TFResult :=
  let nodes := fingerNodes fingerIdx
  let tip := lm nodes.tip
  let mcp := lm nodes.mcp
  let tipAboveMcp := mcp.y - tip.y
  let normalizedExtension := tipAboveMcp / frame.handLength
  let tipToWrist := distance tip (lm 0)
  let mcpToWrist := distance mcp (lm 0)
  let extRatio' := tipToWrist / mcpToWrist
  if normalizedExtension > 0.15 ∧ extRatio' > 1.3 then
    ⟨Zone.GREEN, min 1.0 (0.85 + normalizedExtension), true, "fully extended", "", 0, false⟩
  else if normalizedExtension > 0.08 ∧ extRatio' > 1.15 then
    ⟨Zone.BLUE, 0.75, true, "well extended", "", 0, false⟩
  else if normalizedExtension > 0.02 ∧ extRatio' > 1.0 then
    ⟨Zone.YELLOW, 0.55, true, "partially extended", "", 0, false⟩
  else if normalizedExtension > -0.05 then
    ⟨Zone.YELLOW, 0.40, false, "minimal extension", "", 0, false⟩
  else
    ⟨Zone.RED, 0.20, false, "not extended", "", 0, false⟩

/-- The spec's four-tier target-finger decision table (§4.3), written from the
spec's words as a function of the two signals; returns
(zone, score, extended). -/
def specTargetTier (extension ratio : ℝ) : Zone × ℝ × Bool :=
  if extension > 0.15 ∧ ratio > 1.3 then (Zone.GREEN, min 1.0 (0.85 + extension), true)
  else if extension > 0.08 ∧ ratio > 1.15 then (Zone.BLUE, 0.75, true)
  else if extension > 0.02 ∧ ratio > 1.0 then (Zone.YELLOW, 0.55, true)
  else if extension > -0.05 then (Zone.YELLOW, 0.40, false)
  else (Zone.RED, 0.20, false)

/-- C3: the target-finger classifier is exactly the spec's strictly ordered
four-tier table over `normalizedExtension = (MCP.y − TIP.y)/handLength` and
`extensionRatio = dist(tip,wrist)/dist(mcp,wrist)`; both conditions of a tier
are required (conjunctions), so a finger meeting only one signal's threshold
falls to a lower tier. -/
theorem evaluateTargetFinger_tiers (lm : Lm) (frame : HandFrame) (i : Fin 5) :
    ((evaluateTargetFinger i lm frame).zone, (evaluateTargetFinger i lm frame).score,
      (evaluateTargetFinger i lm frame).extended) =
    specTargetTier (((lm (fingerNodes i).mcp).y - (lm (fingerNodes i).tip).y) / frame.handLength)
      (distance (lm (fingerNodes i).tip) (lm 0) / distance (lm (fingerNodes i).mcp) (lm 0)) := by
  simp only [evaluateTargetFinger, specTargetTier]
  split_ifs <;> rfl

/-- Result of `evaluateNonTargetFinger`.  `severity` is the source's string
tag (`"major"` / `"none"`). -/
structure NTResult where
  zone : Zone
  score : ℝ
  inSafeZone : Bool
  violation : Bool
  severity : String
  detail : String
  finger : String
  fingerIndex : ℕ
  isTarget : Bool

/-- `evaluateNonTargetFinger(fingerIdx, landmarks, boundaries, frame)`: tests
only the fingertip against the GREEN and ACCEPTABLE boundary lines. -/
def evaluateNonTargetFinger (fingerIdx : Fin 5) (lm : Lm) (boundaries : Boundaries)
    (_frame : HandFrame) : NTResult :=
  let nodes := fingerNodes fingerIdx
  let tip := lm nodes.tip
  let aboveGreen := isAboveLine tip boundaries.greenBoundary.start boundaries.greenBoundary.stop
  let aboveAcceptable :=
    isAboveLine tip boundaries.acceptableBoundary.start boundaries.acceptableBoundary.stop
  if aboveGreen then
    ⟨Zone.RED, 0.3, false, true, "major", "finger extended into target zone", "", 0, false⟩
  else if aboveAcceptable then
    ⟨Zone.YELLOW, 0.7, true, false, "none", "finger slightly raised but acceptable", "", 0, false⟩
  else
    ⟨Zone.GREEN, 1.0, true, false, "none", "in safe zone", "", 0, false⟩

/-- The spec's non-target policy (§4.4), written from the spec's words as a
function of the two "above" tests; returns (zone, score, violation,
severity). -/
def specNonTargetTier (aboveGreen aboveAcceptable : Prop) : Zone × ℝ × Bool × String :=
  if aboveGreen then (Zone.RED, 0.3, true, "major")
  else if aboveAcceptable then (Zone.YELLOW, 0.7, false, "none")
  else (Zone.GREEN, 1.0, false, "none")

/-- C4: the non-target classifier tests only the fingertip: above the GREEN
line → RED / 0.3 / violation `major`; else above the ACCEPTABLE line →
YELLOW / 0.7 / no violation; else GREEN / 1.0 / no violation.  In particular
`violation` is `true` exactly when the tip is above the GREEN boundary, so a
tip not above it never yields a violation; and "above" means the point's `y`
is below the line's `y` at the point's `x` (`getYOnLine` interpolates, with
the constant-`y` average for near-vertical lines). -/
theorem evaluateNonTargetFinger_boundary_policy (lm : Lm) (bd : Boundaries) (frame : HandFrame)
    (i : Fin 5) :
    (((evaluateNonTargetFinger i lm bd frame).zone, (evaluateNonTargetFinger i lm bd frame).score,
        (evaluateNonTargetFinger i lm bd frame).violation,
        (evaluateNonTargetFinger i lm bd frame).severity) =
      specNonTargetTier
        (isAboveLine (lm (fingerNodes i).tip) bd.greenBoundary.start bd.greenBoundary.stop)
        (isAboveLine (lm (fingerNodes i).tip) bd.acceptableBoundary.start
          bd.acceptableBoundary.stop))
    ∧ ((evaluateNonTargetFinger i lm bd frame).violation = true ↔
        isAboveLine (lm (fingerNodes i).tip) bd.greenBoundary.start bd.greenBoundary.stop)
    ∧ (∀ p a b : Point, isAboveLine p a b ↔ p.y < getYOnLine p.x a b) := by
  refine ⟨?_, ?_, fun p a b => Iff.rfl⟩
  · simp only [evaluateNonTargetFinger, specNonTargetTier]
    split_ifs <;> rfl
  · simp only [evaluateNonTargetFinger]
    split_ifs with h1 h2 <;> simp [h1]

/-- Result of `evaluateThumb`.  The source returns one of several literal
object shapes; fields a branch does not assign are JS `undefined` (falsy) and
are modelled as `false`.  There is no `severity` field in any thumb result. -/
structure ThumbResult where
  zone : Zone
  score : ℝ
  pass : Bool
  inSafeZone : Bool
  violation : Bool
  ignored : Bool
  detail : String
  finger : String
  fingerIndex : ℕ
  isTarget : Bool

/-- `evaluateThumb(landmarks, frame, isTarget)`: as a target, a four-tier
check on `extensionRatio = dist(tip,wrist)/dist(mcp,wrist)` and
`thumbAwayFromPalm = dist(tip,palmCenter)/handWidth`; as a non-target, GREEN /
1.0 by default, downgraded only to YELLOW / 0.8 (never a violation) when the
tip is laterally past the index MCP by more than 0.3 hand widths and farther
than 0.6 hand lengths from the wrist.  (The unused `thumbIp` local of the
source is omitted.) -/
def evaluateThumb (lm : Lm) (frame : HandFrame) (isTarget : Bool) : ThumbResult :=
  let thumbTip := lm 4
  let thumbMcp := lm 2
  let indexMcp := lm 5
  let wrist := lm 0
  if isTarget then
    let tipToWrist := distance thumbTip wrist
    let mcpToWrist := distance thumbMcp wrist
    let extRatio' := tipToWrist / mcpToWrist
    let thumbAwayFromPalm := distance thumbTip frame.palmCenter / frame.handWidth
    if extRatio' > 1.4 ∧ thumbAwayFromPalm > 0.4 then
      ⟨Zone.GREEN, 1.0, true, false, false, false, "thumb fully extended", "", 0, false⟩
    else if extRatio' > 1.2 ∧ thumbAwayFromPalm > 0.3 then
      ⟨Zone.BLUE, 0.75, true, false, false, false, "thumb well extended", "", 0, false⟩
    else if extRatio' > 1.0 then
      ⟨Zone.YELLOW, 0.50, true, false, false, false, "thumb partially extended", "", 0, false⟩
    else
      ⟨Zone.RED, 0.25, false, false, false, false, "thumb not extended", "", 0, false⟩
  else
    let thumbPastIndex := thumbTip.x < indexMcp.x - frame.handWidth * 0.3
    let thumbVeryExtended := distance thumbTip wrist > frame.handLength * 0.6
    if thumbPastIndex ∧ thumbVeryExtended then
      ⟨Zone.YELLOW, 0.8, false, true, false, false, "thumb extended but acceptable", "", 0, false⟩
    else
      ⟨Zone.GREEN, 1.0, false, true, false, true, "thumb in safe zone (lenient)", "", 0, false⟩

/-- The spec's thumb-as-target tiers (§4.5), from the spec's words; returns
(zone, score, pass). -/
def specThumbTargetTier (ratio away : ℝ) : Zone × ℝ × Bool :=
  if ratio > 1.4 ∧ away > 0.4 then (Zone.GREEN, 1.0, true)
  else if ratio > 1.2 ∧ away > 0.3 then (Zone.BLUE, 0.75, true)
  else if ratio > 1.0 then (Zone.YELLOW, 0.50, true)
  else (Zone.RED, 0.25, false)

/-- C6: as a target the thumb is classified by the spec's four tiers on
`ratio = dist(tip,wrist)/dist(mcp,wrist)` and
`away = dist(tip,palmCenter)/handWidth` (RED with `pass = false` in the last
tier); as a non-target it is GREEN / 1.0 by default and downgraded exactly to
YELLOW / 0.8 when the tip is laterally past the index base by more than 30 %
of the hand width and more than 60 % of the hand length from the wrist — and
its `violation` flag is `false` in both branches, so a non-target thumb never
produces a violation (of any severity). -/
theorem evaluateThumb_policy (lm : Lm) (frame : HandFrame) :
    (((evaluateThumb lm frame true).zone, (evaluateThumb lm frame true).score,
        (evaluateThumb lm frame true).pass) =
      specThumbTargetTier (distance (lm 4) (lm 0) / distance (lm 2) (lm 0))
        (distance (lm 4) frame.palmCenter / frame.handWidth))
    ∧ ((evaluateThumb lm frame false).zone =
        if (lm 4).x < (lm 5).x - frame.handWidth * 0.3 ∧
            distance (lm 4) (lm 0) > frame.handLength * 0.6 then Zone.YELLOW else Zone.GREEN)
    ∧ ((evaluateThumb lm frame false).score =
        if (lm 4).x < (lm 5).x - frame.handWidth * 0.3 ∧
            distance (lm 4) (lm 0) > frame.handLength * 0.6 then 0.8 else 1.0)
    ∧ (evaluateThumb lm frame false).violation = false := by
  refine ⟨?_, ?_, ?_, ?_⟩
  · simp only [evaluateThumb, specThumbTargetTier]
    split_ifs <;> simp_all
  · simp only [evaluateThumb]
    split_ifs <;> simp_all
  · simp only [evaluateThumb]
    split_ifs <;> simp_all
  · simp only [evaluateThumb]
    split_ifs <;> simp_all

/-- Helper: the `headD` of a list sorted ascending is a lower bound of its
members. -/
lemma sorted_headD_le {α : Type} [LinearOrder α] {l : List α} (hs : l.Sorted (· ≤ ·)) {x : α}
    (hx : x ∈ l) (d : α) : l.headD d ≤ x := by
  cases l with
  | nil => cases hx
  | cons a t =>
    rcases List.mem_cons.1 hx with rfl | hxt
    · exact le_rfl
    · exact List.rel_of_sorted_cons hs _ hxt

/-- Helper: the `getLastD` of a list sorted ascending is an upper bound of its
members. -/
lemma sorted_le_getLastD {α : Type} [LinearOrder α] :
    ∀ (l : List α), l.Sorted (· ≤ ·) → ∀ x ∈ l, ∀ d : α, x ≤ l.getLastD d := by
  intro l
  induction l with
  | nil => intro _ x hx; cases hx
  | cons a t ih =>
    intro hs x hx d
    rw [List.getLastD_cons]
    rcases List.mem_cons.1 hx with rfl | hxt
    · cases t with
      | nil => simp
      | cons b u =>
        exact le_trans (List.rel_of_sorted_cons hs b (by simp)) (ih hs.of_cons b (by simp) x)
    · exact ih hs.of_cons x hxt a

/-- Helper: `headD` of a nonempty list is a member. -/
lemma headD_mem {α : Type} {l : List α} (h : l ≠ []) (d : α) : l.headD d ∈ l := by
  cases l with
  | nil => exact absurd rfl h
  | cons a t => simp

/-- Helper: `getLastD` of a nonempty list is a member. -/
lemma getLastD_mem {α : Type} :
    ∀ (l : List α), l ≠ [] → ∀ d : α, l.getLastD d ∈ l := by
  intro l
  induction l with
  | nil => intro h; exact absurd rfl h
  | cons a t ih =>
    intro _ d
    rw [List.getLastD_cons]
    cases t with
    | nil => simp
    | cons b u => exact List.mem_cons_of_mem a (ih (by simp) a)

/-- C7: boundary construction.  With an empty target list the middle finger
(index 2) is the reference; with a single target the three boundaries are the
horizontal lines (equal `start`/`stop` y) through that finger's PIP (GREEN),
DIP (ACCEPTABLE) and MCP (LOW) joints, extended ±1.5 hand widths in `x`; with
two or more targets each boundary is the segment connecting the same-tier
joints of the lowest-index and highest-index targets. -/
theorem createBoundaries_policy :
    (∀ (lm : Lm) (frame : HandFrame),
        createBoundariesForTargets [] lm frame = createBoundaryForFinger 2 lm frame)
    ∧ (∀ (lm : Lm) (frame : HandFrame) (f : Fin 5),
        createBoundariesForTargets [f] lm frame = createBoundaryForFinger f lm frame
        ∧ createBoundaryForFinger f lm frame =
          { greenBoundary :=
              ⟨⟨(lm (fingerNodes f).pip).x - frame.handWidth * 1.5, (lm (fingerNodes f).pip).y, 0⟩,
                ⟨(lm (fingerNodes f).pip).x + frame.handWidth * 1.5, (lm (fingerNodes f).pip).y, 0⟩,
                "GREEN", some (fingerNodes f).pip⟩
            acceptableBoundary :=
              ⟨⟨(lm (fingerNodes f).dip).x - frame.handWidth * 1.5, (lm (fingerNodes f).dip).y, 0⟩,
                ⟨(lm (fingerNodes f).dip).x + frame.handWidth * 1.5, (lm (fingerNodes f).dip).y, 0⟩,
                "ACCEPTABLE", some (fingerNodes f).dip⟩
            lowBoundary :=
              ⟨⟨(lm (fingerNodes f).mcp).x - frame.handWidth * 1.5, (lm (fingerNodes f).mcp).y, 0⟩,
                ⟨(lm (fingerNodes f).mcp).x + frame.handWidth * 1.5, (lm (fingerNodes f).mcp).y, 0⟩,
                "LOW", some (fingerNodes f).mcp⟩ })
    ∧ (∀ (lm : Lm) (frame : HandFrame) (a b : Fin 5) (rest : List (Fin 5)) (lo hi : Fin 5),
        lo ∈ a :: b :: rest → hi ∈ a :: b :: rest →
        (∀ x ∈ a :: b :: rest, lo ≤ x) → (∀ x ∈ a :: b :: rest, x ≤ hi) →
        createBoundariesForTargets (a :: b :: rest) lm frame =
          { greenBoundary := ⟨lm (fingerNodes lo).pip, lm (fingerNodes hi).pip, "GREEN", none⟩
            acceptableBoundary :=
              ⟨lm (fingerNodes lo).dip, lm (fingerNodes hi).dip, "ACCEPTABLE", none⟩
            lowBoundary := ⟨lm (fingerNodes lo).mcp, lm (fingerNodes hi).mcp, "LOW", none⟩ }) := by
  refine ⟨fun lm frame => rfl, fun lm frame f => ⟨rfl, rfl⟩, ?_⟩
  intro lm frame a b rest lo hi hlo hhi hlob hhib
  have hperm := List.perm_insertionSort (α := Fin 5) (· ≤ ·) (a :: b :: rest)
  have hsort := List.sorted_insertionSort (α := Fin 5) (· ≤ ·) (a :: b :: rest)
  have hne : (a :: b :: rest).insertionSort (· ≤ ·) ≠ [] := by
    intro h
    have := hperm.length_eq
    rw [h] at this
    simp at this
  have hhead : ((a :: b :: rest).insertionSort (· ≤ ·)).headD a = lo :=
    le_antisymm (sorted_headD_le hsort (hperm.mem_iff.2 hlo) a)
      (hlob _ (hperm.subset (headD_mem hne a)))
  have hlast : ((a :: b :: rest).insertionSort (· ≤ ·)).getLastD a = hi :=
    le_antisymm (hhib _ (hperm.subset (getLastD_mem _ hne a)))
      (sorted_le_getLastD _ hsort hi (hperm.mem_iff.2 hhi) a)
  simp only [createBoundariesForTargets, hhead, hlast]

/-- Concrete instance of `createBoundaries_policy` (targets `[3, 1]`, extreme
targets 1 and 3) discharging its hypotheses. -/
theorem createBoundaries_policy_witness :
    ((1 : Fin 5) ∈ [(3 : Fin 5), 1] ∧ (3 : Fin 5) ∈ [(3 : Fin 5), 1]
      ∧ (∀ x ∈ [(3 : Fin 5), 1], (1 : Fin 5) ≤ x) ∧ (∀ x ∈ [(3 : Fin 5), 1], x ≤ (3 : Fin 5)))
    ∧ createBoundariesForTargets [3, 1] (fun _ => ⟨0, 0, 0⟩) ⟨⟨0, 0, 0⟩, 0, 0, ⟨0, 0, 0⟩⟩ =
      { greenBoundary :=
          ⟨(fun _ => (⟨0, 0, 0⟩ : Point)) (fingerNodes 1).pip,
            (fun _ => (⟨0, 0, 0⟩ : Point)) (fingerNodes 3).pip, "GREEN", none⟩
        acceptableBoundary :=
          ⟨(fun _ => (⟨0, 0, 0⟩ : Point)) (fingerNodes 1).dip,
            (fun _ => (⟨0, 0, 0⟩ : Point)) (fingerNodes 3).dip, "ACCEPTABLE", none⟩
        lowBoundary :=
          ⟨(fun _ => (⟨0, 0, 0⟩ : Point)) (fingerNodes 1).mcp,
            (fun _ => (⟨0, 0, 0⟩ : Point)) (fingerNodes 3).mcp, "LOW", none⟩ } :=
  ⟨⟨by decide, by decide, by decide, by decide⟩,
    createBoundaries_policy.2.2 (fun _ => ⟨0, 0, 0⟩) ⟨⟨0, 0, 0⟩, 0, 0, ⟨0, 0, 0⟩⟩ 3 1 [] 1 3
      (by decide) (by decide) (by decide) (by decide)⟩

/-- A `violations` entry of the isolation result. -/
structure IsoViolation where
  finger : String
  fingerIndex : ℕ
  severity : String

/-- The isolation evaluation result.  `thumb` is always assigned by the
finger loop (i = 0), hence not an `Option`. -/
structure IsolationResult where
  targets : List TFResult
  nonTargets : List NTResult
  thumb : ThumbResult
  violations : List IsoViolation
  overallZone : Zone
  overallScore : ℝ
  passed : Prop

/-- `evaluateIsolation(landmarks, targetFingers)`.  The source's `for` loop
over the five fingers (thumb first) is modelled by order-preserving
filters/maps over `[0, 1, 2, 3, 4]`; the running accumulators
(`targetScoreSum`, `targetCount`, `allTargetsOk`, `hasMajorViolation`) become
the equivalent folded expressions, with the thumb contribution first, in loop
order. -/
def evaluateIsolation (lm : Lm) (targetFingers : List (Fin 5)) : IsolationResult :=
  let frame := getHandFrame lm
  let boundaries :=
    createBoundariesForTargets (targetFingers.filter (fun f => decide (f ≠ 0))) lm frame
  let thumbIsTarget : Bool := decide ((0 : Fin 5) ∈ targetFingers)
  let thumbRes :=
    { evaluateThumb lm frame thumbIsTarget with
      finger := fingerName 0, fingerIndex := 0, isTarget := thumbIsTarget }
  let targets :=
    ((List.finRange 5).filter (fun i => decide (i ≠ 0) && decide (i ∈ targetFingers))).map
      (fun i =>
        { evaluateTargetFinger i lm frame with
          finger := fingerName i, fingerIndex := i.1, isTarget := true })
  let nonTargets :=
    ((List.finRange 5).filter (fun i => decide (i ≠ 0) && decide (i ∉ targetFingers))).map
      (fun i =>
        { evaluateNonTargetFinger i lm boundaries frame with
          finger := fingerName i, fingerIndex := i.1, isTarget := false })
  let violations :=
    (nonTargets.filter (fun r => r.violation)).map
      (fun r => ({ finger := r.finger, fingerIndex := r.fingerIndex, severity := r.severity } :
        IsoViolation))
  let hasMajorViolation := violations.any (fun v => v.severity == "major")
  let targetScoreSum :=
    (if thumbIsTarget then thumbRes.score else 0) + (targets.map TFResult.score).sum
  let targetCount : ℕ := (if thumbIsTarget then 1 else 0) + targets.length
  let avgScore : ℝ := if targetCount > 0 then targetScoreSum / (targetCount : ℝ) else 0
  let avgScore' :=
    if hasMajorViolation then avgScore * 0.5
    else if violations.length > 0 then avgScore * 0.85
    else avgScore
  { targets := targets
    nonTargets := nonTargets
    thumb := thumbRes
    violations := violations
    overallZone :=
      if avgScore' ≥ 0.85 then Zone.GREEN
      else if avgScore' ≥ 0.65 then Zone.BLUE
      else if avgScore' ≥ 0.40 then Zone.YELLOW
      else Zone.RED
    overallScore := avgScore'
    passed :=
      ((thumbIsTarget = true → thumbRes.pass = true) ∧ ∀ r ∈ targets, r.zone ≠ Zone.RED)
      ∧ hasMajorViolation = false ∧ avgScore' ≥ 0.65 }

/-- The shared 4-tier zone scale (the source's `getZoneFromScore`, and the
isolation thresholds of spec §4.6). -/
def zoneFromScore (s : ℝ) : Zone :=
  if s ≥ 0.85 then Zone.GREEN
  else if s ≥ 0.65 then Zone.BLUE
  else if s ≥ 0.40 then Zone.YELLOW
  else Zone.RED

/-- Spec-side (§4.6): the target fingers of an isolation exercise, in
anatomical order, each counted once. -/
def isoTargetList (ts : List (Fin 5)) : List (Fin 5) :=
  (List.finRange 5).filter (fun i => decide (i ∈ ts))

/-- Spec-side (§4.6): the extension score of one target finger — the thumb via
the thumb classifier, others via the target-finger classifier. -/
def isoTargetScore (lm : Lm) (i : Fin 5) : ℝ :=
  if i = 0 then (evaluateThumb lm (getHandFrame lm) true).score
  else (evaluateTargetFinger i lm (getHandFrame lm)).score

/-- Spec-side (§4.6): the arithmetic mean of the target fingers' scores
(0 with no targets). -/
def isoMeanScore (lm : Lm) (ts : List (Fin 5)) : ℝ :=
  if isoTargetList ts = [] then 0
  else ((isoTargetList ts).map (isoTargetScore lm)).sum / ((isoTargetList ts).length : ℝ)

/-- The boundaries an isolation evaluation uses: built from the non-thumb
targets. -/
def isoBoundaries (lm : Lm) (ts : List (Fin 5)) : Boundaries :=
  createBoundariesForTargets (ts.filter (fun f => decide (f ≠ 0))) lm (getHandFrame lm)

/-- Spec-side: the non-target, non-thumb fingers of an isolation exercise. -/
def isoNonTargetList (ts : List (Fin 5)) : List (Fin 5) :=
  (List.finRange 5).filter (fun i => decide (i ≠ 0) && decide (i ∉ ts))

/-- Spec-side (§4.6): some non-target finger violates with `major` severity. -/
def isoHasMajor (lm : Lm) (ts : List (Fin 5)) : Prop :=
  ∃ i ∈ isoNonTargetList ts,
    (evaluateNonTargetFinger i lm (isoBoundaries lm ts) (getHandFrame lm)).violation = true
    ∧ (evaluateNonTargetFinger i lm (isoBoundaries lm ts) (getHandFrame lm)).severity = "major"

/-- Spec-side (§4.6): some non-target finger violates (any severity). -/
def isoHasViolation (lm : Lm) (ts : List (Fin 5)) : Prop :=
  ∃ i ∈ isoNonTargetList ts,
    (evaluateNonTargetFinger i lm (isoBoundaries lm ts) (getHandFrame lm)).violation = true

/-- Spec-side (§4.6): the violation-penalized mean — any major violation
halves the mean, any violation with no major multiplies it by 0.85. -/
def isoPenalizedMean (lm : Lm) (ts : List (Fin 5)) : ℝ :=
  if isoHasMajor lm ts then isoMeanScore lm ts * 0.5
  else if isoHasViolation lm ts then isoMeanScore lm ts * 0.85
  else isoMeanScore lm ts

/-- Spec-side (§4.6): every target finger individually ok — no target finger
resolved to RED, the thumb via its `pass` flag. -/
def isoAllTargetsOk (lm : Lm) (ts : List (Fin 5)) : Prop :=
  ((0 : Fin 5) ∈ ts → (evaluateThumb lm (getHandFrame lm) true).pass = true)
  ∧ ∀ i ∈ isoTargetList ts, i ≠ 0 → (evaluateTargetFinger i lm (getHandFrame lm)).zone ≠ Zone.RED

/-- Helper: the target set `{i ∈ [0..4] | i ∈ ts}` splits into the optional
thumb followed by the non-thumb targets. -/
lemma isoTargetList_split (ts : List (Fin 5)) :
    isoTargetList ts =
      (if (0 : Fin 5) ∈ ts then [(0 : Fin 5)] else [])
        ++ (List.finRange 5).filter (fun i => decide (i ≠ 0) && decide (i ∈ ts)) := by
  have h1 : ((1 : Fin 5) ≠ 0) := by decide
  have h2 : ((2 : Fin 5) ≠ 0) := by decide
  have h3 : ((3 : Fin 5) ≠ 0) := by decide
  have h4 : ((4 : Fin 5) ≠ 0) := by decide
  rw [isoTargetList, show (List.finRange 5) = ([0, 1, 2, 3, 4] : List (Fin 5)) from by decide]
  by_cases h0 : (0 : Fin 5) ∈ ts <;>
    simp [List.filter_cons, h0, h1, h2, h3, h4]

/-- Shared characterization of the isolation aggregation (used by the C2 and
C10 theorems). -/
lemma evaluateIsolation_characterization (lm : Lm) (ts : List (Fin 5)) :
    (evaluateIsolation lm ts).overallScore = isoPenalizedMean lm ts
    ∧ (evaluateIsolation lm ts).overallZone = zoneFromScore (isoPenalizedMean lm ts)
    ∧ ((evaluateIsolation lm ts).passed ↔
        isoAllTargetsOk lm ts ∧ ¬ isoHasMajor lm ts ∧ isoPenalizedMean lm ts ≥ 0.65) := by
  simp only [evaluateIsolation]
  set f := getHandFrame lm with hfdef
  set bd := createBoundariesForTargets (List.filter (fun x => decide (x ≠ 0)) ts) lm f with hbddef
  set Tidx := List.filter (fun i => decide (i ≠ 0) && decide (i ∈ ts)) (List.finRange 5) with hTdef
  set Nidx := List.filter (fun i => decide (i ≠ 0) && decide (i ∉ ts)) (List.finRange 5) with hNdef
  set Tmap :=
    List.map
      (fun i =>
        { evaluateTargetFinger i lm f with
          finger := fingerName i, fingerIndex := i.1, isTarget := true })
      Tidx with hTmap
  set NTmap :=
    List.map
      (fun i =>
        { evaluateNonTargetFinger i lm bd f with
          finger := fingerName i, fingerIndex := i.1, isTarget := false })
      Nidx with hNTmap
  set viols :=
    List.map
      (fun r =>
        ({ finger := r.finger, fingerIndex := r.fingerIndex, severity := r.severity } :
          IsoViolation))
      (List.filter (fun r => r.violation) NTmap) with hviolsdef
  set anyB := viols.any (fun v => v.severity == "major") with hanyB
  have hM : (anyB = true) ↔ isoHasMajor lm ts := by
    rw [hanyB, hviolsdef, hNTmap, isoHasMajor]
    simp only [List.any_eq_true, List.mem_map, List.mem_filter]
    constructor
    · rintro ⟨v, ⟨r, ⟨⟨i, hiN, rfl⟩, hviol⟩, rfl⟩, hsev⟩
      exact ⟨i, hiN, hviol, by simpa using hsev⟩
    · rintro ⟨i, hiN, hviol, hsev⟩
      refine ⟨_, ⟨_, ⟨⟨i, hiN, rfl⟩, hviol⟩, rfl⟩, by simpa using hsev⟩
  have hV : (viols.length > 0) ↔ isoHasViolation lm ts := by
    rw [hviolsdef, hNTmap, isoHasViolation]
    rw [gt_iff_lt, List.length_pos_iff_ne_nil, ne_eq, List.eq_nil_iff_forall_not_mem]
    push_neg
    simp only [List.mem_map, List.mem_filter]
    constructor
    · rintro ⟨v, ⟨r, ⟨⟨i, hiN, rfl⟩, hviol⟩, rfl⟩⟩
      exact ⟨i, hiN, hviol⟩
    · rintro ⟨i, hiN, hviol⟩
      exact ⟨_, ⟨_, ⟨⟨i, hiN, rfl⟩, hviol⟩, rfl⟩⟩
  have hMf : (anyB = false) ↔ ¬ isoHasMajor lm ts := by
    constructor
    · intro h hmaj
      rw [hM.mpr hmaj] at h
      simp at h
    · intro h
      cases hb : anyB with
      | false => rfl
      | true => exact absurd (hM.mp hb) h
  have hSum :
      (List.map TFResult.score Tmap).sum
        = (List.map (fun i => (evaluateTargetFinger i lm f).score) Tidx).sum := by
    rw [hTmap, List.map_map]
    rfl
  have hLen : Tmap.length = Tidx.length := by
    rw [hTmap]
    exact List.length_map _ _
  have hMean :
      (if ((if decide ((0 : Fin 5) ∈ ts) = true then 1 else 0) + Tmap.length > 0) then
          ((if decide ((0 : Fin 5) ∈ ts) = true then
              (evaluateThumb lm f (decide ((0 : Fin 5) ∈ ts))).score
            else 0) + (List.map TFResult.score Tmap).sum) /
            (((if decide ((0 : Fin 5) ∈ ts) = true then 1 else 0) + Tmap.length : ℕ) : ℝ)
        else 0)
        = isoMeanScore lm ts := by
    rw [hSum, hLen, isoMeanScore, isoTargetList_split, ← hTdef]
    by_cases h0 : (0 : Fin 5) ∈ ts
    · simp only [h0, eq_self_iff_true, decide_True, if_true, iff_true, reduceIte]
      have hne : (([(0 : Fin 5)] ++ Tidx) : List (Fin 5)) ≠ [] := by simp
      rw [if_neg hne]
      rw [if_pos (by omega)]
      simp only [List.map_append, List.sum_append, List.length_append, List.length_cons,
        List.length_nil, List.map_cons, List.map_nil, List.sum_cons, List.sum_nil]
      have hts : isoTargetScore lm 0 = (evaluateThumb lm f true).score := by
        rw [isoTargetScore, if_pos rfl, hfdef]
      rw [hts]
      have htail :
          List.map (isoTargetScore lm) Tidx
            = List.map (fun i => (evaluateTargetFinger i lm f).score) Tidx := by
        apply List.map_congr_left
        intro i hi
        rw [hTdef] at hi
        simp only [List.mem_filter, Bool.and_eq_true, decide_eq_true_eq] at hi
        rw [isoTargetScore, if_neg hi.2.1, hfdef]
      rw [htail]
      ring_nf
    · simp only [h0, decide_False, Bool.false_eq_true, if_false, List.nil_append, zero_add,
        iff_false, reduceIte]
      by_cases hT0 : Tidx = []
      · rw [hT0]
        simp
      · rw [if_neg hT0, if_pos (List.length_pos_iff_ne_nil.mpr hT0)]
        have htail :
            List.map (isoTargetScore lm) Tidx
              = List.map (fun i => (evaluateTargetFinger i lm f).score) Tidx := by
          apply List.map_congr_left
          intro i hi
          rw [hTdef] at hi
          simp only [List.mem_filter, Bool.and_eq_true, decide_eq_true_eq] at hi
          rw [isoTargetScore, if_neg hi.2.1, hfdef]
        rw [htail]
  have hScore :
      (if anyB = true then
          (if ((if decide ((0 : Fin 5) ∈ ts) = true then 1 else 0) + Tmap.length > 0) then
              ((if decide ((0 : Fin 5) ∈ ts) = true then
                  (evaluateThumb lm f (decide ((0 : Fin 5) ∈ ts))).score
                else 0) + (List.map TFResult.score Tmap).sum) /
                (((if decide ((0 : Fin 5) ∈ ts) = true then 1 else 0) + Tmap.length : ℕ) : ℝ)
            else 0) * 0.5
        else if viols.length > 0 then
          (if ((if decide ((0 : Fin 5) ∈ ts) = true then 1 else 0) + Tmap.length > 0) then
              ((if decide ((0 : Fin 5) ∈ ts) = true then
                  (evaluateThumb lm f (decide ((0 : Fin 5) ∈ ts))).score
                else 0) + (List.map TFResult.score Tmap).sum) /
                (((if decide ((0 : Fin 5) ∈ ts) = true then 1 else 0) + Tmap.length : ℕ) : ℝ)
            else 0) * 0.85
        else
          (if ((if decide ((0 : Fin 5) ∈ ts) = true then 1 else 0) + Tmap.length > 0) then
              ((if decide ((0 : Fin 5) ∈ ts) = true then
                  (evaluateThumb lm f (decide ((0 : Fin 5) ∈ ts))).score
                else 0) + (List.map TFResult.score Tmap).sum) /
                (((if decide ((0 : Fin 5) ∈ ts) = true then 1 else 0) + Tmap.length : ℕ) : ℝ)
            else 0))
        = isoPenalizedMean lm ts := by
    rw [hMean, isoPenalizedMean]
    by_cases hmaj : isoHasMajor lm ts
    · rw [if_pos (hM.mpr hmaj), if_pos hmaj]
    · rw [if_neg (fun h => hmaj (hM.mp h)), if_neg hmaj]
      by_cases hviol : isoHasViolation lm ts
      · rw [if_pos (hV.mpr hviol), if_pos hviol]
      · rw [if_neg (fun h => hviol (hV.mp h)), if_neg hviol]
  have hThumb :
      ((decide ((0 : Fin 5) ∈ ts) = true →
          (evaluateThumb lm f (decide ((0 : Fin 5) ∈ ts))).pass = true)) ↔
        (((0 : Fin 5) ∈ ts → (evaluateThumb lm (getHandFrame lm) true).pass = true)) := by
    by_cases h0 : (0 : Fin 5) ∈ ts
    · simp [h0, hfdef]
    · simp [h0]
  have hmemT : ∀ i : Fin 5, i ∈ Tidx ↔ (i ∈ isoTargetList ts ∧ i ≠ 0) := by
    intro i
    rw [hTdef, isoTargetList]
    simp only [List.mem_filter, Bool.and_eq_true, decide_eq_true_eq]
    constructor
    · rintro ⟨hfr, hne, hmem⟩
      exact ⟨⟨hfr, hmem⟩, hne⟩
    · rintro ⟨⟨hfr, hmem⟩, hne⟩
      exact ⟨hfr, hne, hmem⟩
  have hTgt :
      (∀ r ∈ Tmap, r.zone ≠ Zone.RED) ↔
        (∀ i ∈ isoTargetList ts, i ≠ 0 →
          (evaluateTargetFinger i lm (getHandFrame lm)).zone ≠ Zone.RED) := by
    rw [hTmap]
    constructor
    · intro h i hiIso hine
      have hmem : i ∈ Tidx := (hmemT i).mpr ⟨hiIso, hine⟩
      have := h _ (List.mem_map_of_mem _ hmem)
      rw [hfdef] at this
      exact this
    · intro h r hr
      rcases List.mem_map.1 hr with ⟨i, hi, rfl⟩
      rcases (hmemT i).mp hi with ⟨hiIso, hine⟩
      have := h i hiIso hine
      rw [← hfdef] at this
      exact this
  refine ⟨hScore, ?_, ?_⟩
  · rw [hScore, zoneFromScore]
  · rw [hScore, isoAllTargetsOk]
    exact and_congr (and_congr hThumb hTgt) (and_congr hMf Iff.rfl)

/-- C2: the isolation aggregation — `overallScore` is the arithmetic mean of
the target fingers' scores times the violation penalty (×0.5 with a major
violation, else ×0.85 with any violation); `overallZone` is the shared
4-tier scale applied to that penalized mean; `passed` holds iff every target
finger is individually ok (no RED target, thumb via `pass`), there is no
major violation, and the penalized mean is ≥ 0.65. -/
theorem evaluateIsolation_aggregation (lm : Lm) (ts : List (Fin 5)) :
    (evaluateIsolation lm ts).overallScore = isoPenalizedMean lm ts
    ∧ (evaluateIsolation lm ts).overallZone = zoneFromScore (isoPenalizedMean lm ts)
    ∧ ((evaluateIsolation lm ts).passed ↔
        isoAllTargetsOk lm ts ∧ ¬ isoHasMajor lm ts ∧ isoPenalizedMean lm ts ≥ 0.65) :=
  evaluateIsolation_characterization lm ts

/-- A pinch-pair entry: one of the five literal tip node indices
`ALL_TIPS = [4, 8, 12, 16, 20]` (the descriptor contract of spec §6). -/
def TipNode : Type := {n : ℕ // n ∈ allTips}

/-- The tip node as a landmark index. -/
def tipFin (t : TipNode) : Fin 21 :=
  ⟨t.1, by
    have h := t.2
    simp only [allTips, List.mem_cons, List.mem_singleton, List.not_mem_nil, or_false] at h
    rcases h with h | h | h | h | h <;> omega⟩

/-- `ALL_TIPS.indexOf(tipIdx)`: the finger index owning a tip node. -/
def fingerOfTip (t : TipNode) : Fin 5 :=
  ⟨allTips.indexOf t.1, by
    have h : allTips.indexOf t.1 < allTips.length := List.indexOf_lt_length.2 t.2
    simpa [allTips] using h⟩

/-- The thumb tip node (4). -/
def tip4 : TipNode := ⟨4, by decide⟩

/-- The index-finger tip node (8). -/
def tip8 : TipNode := ⟨8, by decide⟩

/-- A `violations` entry of the pinch result. -/
structure PinchViolation where
  finger : String
  severity : String

/-- The pinch evaluation result. -/
structure PinchResult where
  distance : ℝ
  zone : Zone
  score : ℝ
  passed : Prop
  violations : List PinchViolation
  involvedFingers : List (Fin 5)
  thumbHandling : String

/-- `evaluatePinch(landmarks, pinchPair)`: zone/score from the tip-to-tip
distance normalized by hand width (six literal bands); the non-involved,
non-thumb fingers are then checked against boundaries built from the
non-thumb involved fingers (middle-finger fallback), recording only `major`
violations; any violation multiplies the score by 0.7 and downgrades a GREEN
zone to BLUE; `passed = finalScore ≥ 0.65`. -/
def evaluatePinch (lm : Lm) (pinchPair : TipNode × TipNode) : PinchResult :=
  let frame := getHandFrame lm
  let tip1 := lm (tipFin pinchPair.1)
  let tip2 := lm (tipFin pinchPair.2)
  let dist := distance tip1 tip2
  let normalizedDist := dist / frame.handWidth
  let zs : Zone × ℝ :=
    if normalizedDist < 0.05 then (Zone.GREEN, 1.0)
    else if normalizedDist < 0.08 then (Zone.GREEN, 0.90)
    else if normalizedDist < 0.12 then (Zone.BLUE, 0.75)
    else if normalizedDist < 0.18 then (Zone.YELLOW, 0.55)
    else if normalizedDist < 0.28 then (Zone.YELLOW, 0.40)
    else (Zone.RED, 0.20)
  let involvedFingers : List (Fin 5) := [fingerOfTip pinchPair.1, fingerOfTip pinchPair.2]
  let nonThumbInvolved := involvedFingers.filter (fun f => decide (f ≠ 0))
  let boundaries :=
    if nonThumbInvolved.length > 0 then createBoundariesForTargets nonThumbInvolved lm frame
    else createBoundaryForFinger 2 lm frame
  let violations :=
    ((List.finRange 5).filter (fun i => decide (i ≠ 0) && decide (i ∉ involvedFingers))).filterMap
      (fun i =>
        let r := evaluateNonTargetFinger i lm boundaries frame
        if r.violation = true ∧ r.severity = "major" then
          some ({ finger := fingerName i, severity := "major" } : PinchViolation)
        else none)
  let finalScore := if violations.length > 0 then zs.2 * 0.7 else zs.2
  let zone' :=
    if violations.length > 0 then (if zs.1 = Zone.GREEN then Zone.BLUE else zs.1) else zs.1
  { distance := normalizedDist
    zone := zone'
    score := finalScore
    passed := finalScore ≥ 0.65
    violations := violations
    involvedFingers := involvedFingers
    thumbHandling := "lenient" }

/-- Spec-side (§4.6): the six literal pinch distance bands. -/
def specPinchBand (nd : ℝ) : Zone × ℝ :=
  if nd < 0.05 then (Zone.GREEN, 1.0)
  else if nd < 0.08 then (Zone.GREEN, 0.90)
  else if nd < 0.12 then (Zone.BLUE, 0.75)
  else if nd < 0.18 then (Zone.YELLOW, 0.55)
  else if nd < 0.28 then (Zone.YELLOW, 0.40)
  else (Zone.RED, 0.20)

/-- Spec-side: the tip-to-tip distance normalized by hand width. -/
def pinchNormDist (lm : Lm) (pp : TipNode × TipNode) : ℝ :=
  distance (lm (tipFin pp.1)) (lm (tipFin pp.2)) / (getHandFrame lm).handWidth

/-- The fingers owning the two pinch tips. -/
def pinchInvolved (pp : TipNode × TipNode) : List (Fin 5) :=
  [fingerOfTip pp.1, fingerOfTip pp.2]

/-- The boundaries a pinch evaluation uses. -/
def pinchBoundaries (lm : Lm) (pp : TipNode × TipNode) : Boundaries :=
  if ((pinchInvolved pp).filter (fun f => decide (f ≠ 0))).length > 0 then
    createBoundariesForTargets ((pinchInvolved pp).filter (fun f => decide (f ≠ 0))) lm
      (getHandFrame lm)
  else createBoundaryForFinger 2 lm (getHandFrame lm)

/-- Spec-side: some non-involved, non-thumb finger has a major violation. -/
def pinchHasMajorViolation (lm : Lm) (pp : TipNode × TipNode) : Prop :=
  ∃ i : Fin 5, (i ≠ 0 ∧ i ∉ pinchInvolved pp)
    ∧ (evaluateNonTargetFinger i lm (pinchBoundaries lm pp) (getHandFrame lm)).violation = true
    ∧ (evaluateNonTargetFinger i lm (pinchBoundaries lm pp) (getHandFrame lm)).severity = "major"

/-- Helper: against a horizontal line whose endpoints are ≥ 0.0001 apart in
`x`, "above" is simply a `y` comparison. -/
lemma isAboveLine_horiz {p : Point} {x1 x2 y0 z1 z2 : ℝ} (h : ¬ |x2 - x1| < 0.0001) :
    isAboveLine p ⟨x1, y0, z1⟩ ⟨x2, y0, z2⟩ ↔ p.y < y0 := by
  rw [isAboveLine, getYOnLine]
  simp only []
  rw [if_neg h]
  norm_num

/-- The demonstration landmark set for the pinch scenario: thumb tip and
index tip coincident at (0.5, 0.8), hand width 0.4 (index MCP (0.3, 0.6),
pinky MCP (0.7, 0.6)), index PIP (0.3, 0.4) and DIP (0.3, 0.3) well above
the remaining fingertips at (0.5, 0.9). -/
def pinchDemoLm : Lm := fun i =>
  if i.1 = 4 ∨ i.1 = 8 then ⟨0.5, 0.8, 0⟩
  else if i.1 = 5 then ⟨0.3, 0.6, 0⟩
  else if i.1 = 17 then ⟨0.7, 0.6, 0⟩
  else if i.1 = 6 then ⟨0.3, 0.4, 0⟩
  else if i.1 = 7 then ⟨0.3, 0.3, 0⟩
  else ⟨0.5, 0.9, 0⟩

/-- C5: the pinch policy — score and zone come solely from the six literal
distance bands over the tip-to-tip distance normalized by hand width; any
major violation of a non-involved, non-thumb finger multiplies the score by
0.7 and downgrades a GREEN zone to BLUE; every recorded violation has
severity `major` (minor ones never appear); `passed` holds iff the final
score is ≥ 0.65; and with thumb tip and index tip coincident under pinch
pair [4, 8] (the `pinchDemoLm` snapshot) the result is GREEN with score
exactly 1.0. -/
theorem evaluatePinch_policy :
    (∀ (lm : Lm) (pp : TipNode × TipNode),
      ((evaluatePinch lm pp).score =
          if (evaluatePinch lm pp).violations.length > 0 then
            (specPinchBand (pinchNormDist lm pp)).2 * 0.7
          else (specPinchBand (pinchNormDist lm pp)).2)
      ∧ ((evaluatePinch lm pp).zone =
          if (evaluatePinch lm pp).violations.length > 0 then
            (if (specPinchBand (pinchNormDist lm pp)).1 = Zone.GREEN then Zone.BLUE
             else (specPinchBand (pinchNormDist lm pp)).1)
          else (specPinchBand (pinchNormDist lm pp)).1)
      ∧ ((evaluatePinch lm pp).violations.length > 0 ↔ pinchHasMajorViolation lm pp)
      ∧ (∀ v ∈ (evaluatePinch lm pp).violations, v.severity = "major")
      ∧ ((evaluatePinch lm pp).passed ↔ (evaluatePinch lm pp).score ≥ 0.65))
    ∧ ((evaluatePinch pinchDemoLm (tip4, tip8)).zone = Zone.GREEN
        ∧ (evaluatePinch pinchDemoLm (tip4, tip8)).score = 1.0) := by
  have hU : ∀ (lm : Lm) (pp : TipNode × TipNode),
      ((evaluatePinch lm pp).score =
          if (evaluatePinch lm pp).violations.length > 0 then
            (specPinchBand (pinchNormDist lm pp)).2 * 0.7
          else (specPinchBand (pinchNormDist lm pp)).2)
      ∧ ((evaluatePinch lm pp).zone =
          if (evaluatePinch lm pp).violations.length > 0 then
            (if (specPinchBand (pinchNormDist lm pp)).1 = Zone.GREEN then Zone.BLUE
             else (specPinchBand (pinchNormDist lm pp)).1)
          else (specPinchBand (pinchNormDist lm pp)).1)
      ∧ ((evaluatePinch lm pp).violations.length > 0 ↔ pinchHasMajorViolation lm pp)
      ∧ (∀ v ∈ (evaluatePinch lm pp).violations, v.severity = "major")
      ∧ ((evaluatePinch lm pp).passed ↔ (evaluatePinch lm pp).score ≥ 0.65) := by
    intro lm pp
    refine ⟨rfl, rfl, ?_, ?_, Iff.rfl⟩
    · show ((((List.finRange 5).filter
          (fun i => decide (i ≠ 0) && decide (i ∉ pinchInvolved pp))).filterMap
            (fun i =>
              let r := evaluateNonTargetFinger i lm (pinchBoundaries lm pp) (getHandFrame lm)
              if r.violation = true ∧ r.severity = "major" then
                some ({ finger := fingerName i, severity := "major" } : PinchViolation)
              else none)).length > 0) ↔ pinchHasMajorViolation lm pp
      rw [pinchHasMajorViolation]
      rw [gt_iff_lt, List.length_pos_iff_ne_nil, ne_eq, List.eq_nil_iff_forall_not_mem]
      push_neg
      constructor
      · rintro ⟨v, hv⟩
        rcases List.mem_filterMap.1 hv with ⟨i, hi, hfi⟩
        simp only [List.mem_filter, List.mem_finRange, true_and, Bool.and_eq_true,
          decide_eq_true_eq] at hi
        by_cases hc :
            (evaluateNonTargetFinger i lm (pinchBoundaries lm pp) (getHandFrame lm)).violation
              = true
            ∧ (evaluateNonTargetFinger i lm (pinchBoundaries lm pp) (getHandFrame lm)).severity
              = "major"
        · exact ⟨i, hi, hc⟩
        · rw [if_neg hc] at hfi
          cases hfi
      · rintro ⟨i, ⟨hne, hnin⟩, hc⟩
        refine ⟨({ finger := fingerName i, severity := "major" } : PinchViolation),
          List.mem_filterMap.2 ⟨i, ?_, ?_⟩⟩
        · simp only [List.mem_filter, List.mem_finRange, true_and, Bool.and_eq_true,
            decide_eq_true_eq]
          exact ⟨hne, hnin⟩
        · rw [if_pos hc]
    · show ∀ v ∈ (((List.finRange 5).filter
          (fun i => decide (i ≠ 0) && decide (i ∉ pinchInvolved pp))).filterMap
            (fun i =>
              let r := evaluateNonTargetFinger i lm (pinchBoundaries lm pp) (getHandFrame lm)
              if r.violation = true ∧ r.severity = "major" then
                some ({ finger := fingerName i, severity := "major" } : PinchViolation)
              else none)), v.severity = "major"
      intro v hv
      rcases List.mem_filterMap.1 hv with ⟨i, _, hfi⟩
      by_cases hc :
          (evaluateNonTargetFinger i lm (pinchBoundaries lm pp) (getHandFrame lm)).violation
            = true
          ∧ (evaluateNonTargetFinger i lm (pinchBoundaries lm pp) (getHandFrame lm)).severity
            = "major"
      · rw [if_pos hc] at hfi
        cases hfi
        rfl
      · rw [if_neg hc] at hfi
        cases hfi
  refine ⟨hU, ?_⟩
  have hW : (getHandFrame pinchDemoLm).handWidth = 0.4 := by
    have h5 : pinchDemoLm 5 = ⟨0.3, 0.6, 0⟩ := rfl
    have h17 : pinchDemoLm 17 = ⟨0.7, 0.6, 0⟩ := rfl
    show distance (pinchDemoLm 5) (pinchDemoLm 17) = 0.4
    rw [h5, h17, distance]
    rw [show ((0.3 : ℝ) - 0.7) ^ 2 + ((0.6 : ℝ) - 0.6) ^ 2 + ((0 : ℝ) - 0) ^ 2 = 0.4 ^ 2 by
      norm_num]
    exact Real.sqrt_sq (by norm_num)
  have hnd : pinchNormDist pinchDemoLm (tip4, tip8) = 0 := by
    rw [pinchNormDist]
    have h4 : pinchDemoLm (tipFin tip4) = ⟨0.5, 0.8, 0⟩ := rfl
    have h8 : pinchDemoLm (tipFin tip8) = ⟨0.5, 0.8, 0⟩ := rfl
    rw [h4, h8, distance]
    rw [show ((0.5 : ℝ) - 0.5) ^ 2 + ((0.8 : ℝ) - 0.8) ^ 2 + ((0 : ℝ) - 0) ^ 2 = 0 by norm_num]
    rw [Real.sqrt_zero, zero_div]
  have hband0 : specPinchBand 0 = (Zone.GREEN, 1.0) := by
    rw [specPinchBand]
    norm_num
  have hinv : pinchInvolved (tip4, tip8) = [0, 1] := by decide
  have hbd :
      pinchBoundaries pinchDemoLm (tip4, tip8)
        = createBoundaryForFinger 1 pinchDemoLm (getHandFrame pinchDemoLm) := by
    rw [pinchBoundaries, hinv]
    rw [show (([0, 1] : List (Fin 5)).filter (fun f => decide (f ≠ 0))) = [1] by decide]
    rw [if_pos (by norm_num)]
    rfl
  have habs : ¬ |((0.3 : ℝ) + 0.4 * 1.5) - (0.3 - 0.4 * 1.5)| < 0.0001 := by
    rw [abs_of_nonneg (by norm_num)]
    norm_num
  have hnv : ∀ i : Fin 5, i ≠ 0 → i ∉ pinchInvolved (tip4, tip8) →
      (evaluateNonTargetFinger i pinchDemoLm (pinchBoundaries pinchDemoLm (tip4, tip8))
        (getHandFrame pinchDemoLm)).violation = false := by
    intro i hne hnin
    rw [hinv] at hnin
    have hi : i = 2 ∨ i = 3 ∨ i = 4 := by
      fin_cases i
      · exact absurd rfl hne
      · exact absurd (by decide) hnin
      · exact Or.inl rfl
      · exact Or.inr (Or.inl rfl)
      · exact Or.inr (Or.inr rfl)
    have htip : pinchDemoLm (fingerNodes i).tip = ⟨0.5, 0.9, 0⟩ := by
      rcases hi with rfl | rfl | rfl <;> rfl
    rw [evaluateNonTargetFinger, hbd]
    have hga :
        ¬ isAboveLine (pinchDemoLm (fingerNodes i).tip)
          (createBoundaryForFinger 1 pinchDemoLm (getHandFrame pinchDemoLm)).greenBoundary.start
          (createBoundaryForFinger 1 pinchDemoLm
            (getHandFrame pinchDemoLm)).greenBoundary.stop := by
      show ¬ isAboveLine (pinchDemoLm (fingerNodes i).tip)
        ⟨(pinchDemoLm 6).x - (getHandFrame pinchDemoLm).handWidth * 1.5, (pinchDemoLm 6).y, 0⟩
        ⟨(pinchDemoLm 6).x + (getHandFrame pinchDemoLm).handWidth * 1.5, (pinchDemoLm 6).y, 0⟩
      rw [htip, hW, show pinchDemoLm 6 = ⟨0.3, 0.4, 0⟩ from rfl]
      rw [isAboveLine_horiz habs]
      norm_num
    have haa :
        ¬ isAboveLine (pinchDemoLm (fingerNodes i).tip)
          (createBoundaryForFinger 1 pinchDemoLm
            (getHandFrame pinchDemoLm)).acceptableBoundary.start
          (createBoundaryForFinger 1 pinchDemoLm
            (getHandFrame pinchDemoLm)).acceptableBoundary.stop := by
      show ¬ isAboveLine (pinchDemoLm (fingerNodes i).tip)
        ⟨(pinchDemoLm 7).x - (getHandFrame pinchDemoLm).handWidth * 1.5, (pinchDemoLm 7).y, 0⟩
        ⟨(pinchDemoLm 7).x + (getHandFrame pinchDemoLm).handWidth * 1.5, (pinchDemoLm 7).y, 0⟩
      rw [htip, hW, show pinchDemoLm 7 = ⟨0.3, 0.3, 0⟩ from rfl]
      rw [isAboveLine_horiz habs]
      norm_num
    rw [if_neg hga, if_neg haa]
  have hnomaj : ¬ pinchHasMajorViolation pinchDemoLm (tip4, tip8) := by
    rintro ⟨i, ⟨hne, hnin⟩, hviol, _⟩
    rw [hnv i hne hnin] at hviol
    cases hviol
  obtain ⟨hsc, hzn, hlen, _, _⟩ := hU pinchDemoLm (tip4, tip8)
  have hlen0 : ¬ ((evaluatePinch pinchDemoLm (tip4, tip8)).violations.length > 0) := fun h =>
    hnomaj (hlen.mp h)
  constructor
  · rw [hzn, if_neg hlen0, hnd, hband0]
  · rw [hsc, if_neg hlen0, hnd, hband0]

/-- The `ALL_TIPS` table indexed by finger (`ALL_TIPS[i]`). -/
def allTipsF : Fin 5 → Fin 21
  | 0 => 4
  | 1 => 8
  | 2 => 12
  | 3 => 16
  | 4 => 20

/-- A per-finger entry of the spread/flat `fingerResults` list: the thumb is
evaluated by the thumb classifier, the other fingers by the target-finger
classifier (the source stores both object shapes in one array). -/
inductive FingerEval
  | thumbE (t : ThumbResult)
  | targetE (t : TFResult)

/-- The score of a spread/flat per-finger entry. -/
def FingerEval.score : FingerEval → ℝ
  | thumbE t => t.score
  | targetE t => t.score

/-- The zone of a spread/flat per-finger entry. -/
def FingerEval.zone : FingerEval → Zone
  | thumbE t => t.zone
  | targetE t => t.zone

/-- The spread evaluation result. -/
structure SpreadResult where
  fingerResults : List FingerEval
  extensionScore : ℝ
  gapScore : ℝ
  gaps : List ℝ
  zone : Zone
  score : ℝ
  passed : Prop

/-- `evaluateSpread(landmarks)`: mean per-finger extension score (thumb as
target) weighted 0.5, plus a gap score over the four adjacent fingertip
distances normalized by hand width (bands > 0.30/0.20/0.12/0.06 →
1.0/0.8/0.6/0.4, else 0.2) weighted 0.5; zone at ≥ 0.85/0.65/0.45. -/
def evaluateSpread (lm : Lm) : SpreadResult :=
  let frame := getHandFrame lm
  let results : List FingerEval :=
    (List.finRange 5).map (fun i =>
      if i = 0 then
        FingerEval.thumbE
          { evaluateThumb lm frame true with finger := fingerName i, fingerIndex := i.1 }
      else
        FingerEval.targetE
          { evaluateTargetFinger i lm frame with finger := fingerName i, fingerIndex := i.1 })
  let totalScore := (results.map FingerEval.score).sum
  let extensionScore := totalScore / 5
  let gaps :=
    (List.finRange 4).map (fun k =>
      distance (lm (allTipsF k.castSucc)) (lm (allTipsF k.succ)) / frame.handWidth)
  let gapScore :=
    (gaps.map (fun g =>
      if g > 0.30 then (1.0 : ℝ)
      else if g > 0.20 then 0.80
      else if g > 0.12 then 0.60
      else if g > 0.06 then 0.40
      else 0.20)).sum / 4
  let finalScore := extensionScore * 0.5 + gapScore * 0.5
  { fingerResults := results
    extensionScore := extensionScore
    gapScore := gapScore
    gaps := gaps
    zone :=
      if finalScore ≥ 0.85 then Zone.GREEN
      else if finalScore ≥ 0.65 then Zone.BLUE
      else if finalScore ≥ 0.45 then Zone.YELLOW
      else Zone.RED
    score := finalScore
    passed := finalScore ≥ 0.65 }

/-- A per-finger entry of the fist result. -/
structure FistFinger where
  finger : String
  fingerIndex : ℕ
  zone : Zone
  score : ℝ
  curled : Bool

/-- The fist evaluation result. -/
structure FistResult where
  fingerResults : List FistFinger
  zone : Zone
  score : ℝ
  passed : Prop

/-- `evaluateFist(landmarks)`: per finger, curl from
`(tip.y − mcp.y)/handLength` and `dist(tip,wrist)/dist(mcp,wrist)`, four
tiers (0.08 & <0.9 → GREEN/1.0, 0.02 & <1.0 → BLUE/0.75, −0.05 & <1.1 →
YELLOW/0.50, else RED/0.25); mean score, zone at ≥ 0.80/0.60/0.45, passed at
≥ 0.55. -/
def evaluateFist (lm : Lm) : FistResult :=
  let frame := getHandFrame lm
  let results :=
    (List.finRange 5).map (fun i =>
      let nodes := fingerNodes i
      let tip := lm nodes.tip
      let mcp := lm nodes.mcp
      let wrist := lm 0
      let tipBelowMcp := tip.y - mcp.y
      let normalizedCurl := tipBelowMcp / frame.handLength
      let tipToWrist := distance tip wrist
      let mcpToWrist := distance mcp wrist
      let curlRatio' := tipToWrist / mcpToWrist
      if normalizedCurl > 0.08 ∧ curlRatio' < 0.9 then
        (⟨fingerName i, i.1, Zone.GREEN, 1.0, true⟩ : FistFinger)
      else if normalizedCurl > 0.02 ∧ curlRatio' < 1.0 then
        (⟨fingerName i, i.1, Zone.BLUE, 0.75, true⟩ : FistFinger)
      else if normalizedCurl > -0.05 ∧ curlRatio' < 1.1 then
        (⟨fingerName i, i.1, Zone.YELLOW, 0.50, true⟩ : FistFinger)
      else
        (⟨fingerName i, i.1, Zone.RED, 0.25, false⟩ : FistFinger))
  let finalScore := (results.map FistFinger.score).sum / 5
  { fingerResults := results
    zone :=
      if finalScore ≥ 0.80 then Zone.GREEN
      else if finalScore ≥ 0.60 then Zone.BLUE
      else if finalScore ≥ 0.45 then Zone.YELLOW
      else Zone.RED
    score := finalScore
    passed := finalScore ≥ 0.55 }

/-- The flat-hand evaluation result. -/
structure FlatResult where
  fingerResults : List FingerEval
  extensionScore : ℝ
  togetherScore : ℝ
  zone : Zone
  score : ℝ
  passed : Prop

/-- `evaluateFlat(landmarks)`: per-finger extension (weight 0.6, thumb as
target) combined with a togetherness score (weight 0.4) over the same
adjacent-tip gaps with inverted, tighter bands (< 0.06/0.10/0.15/0.22 →
1.0/0.8/0.6/0.4, else 0.2); zone at ≥ 0.85/0.65/0.45.  (The source sets
only `finger`, not `fingerIndex`, on these results.) -/
def evaluateFlat (lm : Lm) : FlatResult :=
  let frame := getHandFrame lm
  let results : List FingerEval :=
    (List.finRange 5).map (fun i =>
      if i = 0 then
        FingerEval.thumbE { evaluateThumb lm frame true with finger := fingerName i }
      else
        FingerEval.targetE { evaluateTargetFinger i lm frame with finger := fingerName i })
  let extensionScore := (results.map FingerEval.score).sum / 5
  let togetherScore :=
    (((List.finRange 4).map (fun k =>
        distance (lm (allTipsF k.castSucc)) (lm (allTipsF k.succ)) / frame.handWidth)).map
      (fun g =>
        if g < 0.06 then (1.0 : ℝ)
        else if g < 0.10 then 0.80
        else if g < 0.15 then 0.60
        else if g < 0.22 then 0.40
        else 0.20)).sum / 4
  let finalScore := extensionScore * 0.6 + togetherScore * 0.4
  { fingerResults := results
    extensionScore := extensionScore
    togetherScore := togetherScore
    zone :=
      if finalScore ≥ 0.85 then Zone.GREEN
      else if finalScore ≥ 0.65 then Zone.BLUE
      else if finalScore ≥ 0.45 then Zone.YELLOW
      else Zone.RED
    score := finalScore
    passed := finalScore ≥ 0.65 }

/-- An exercise descriptor (`{type, targetFingers?, pinchPair?}`) at its §6
contract types: `type` is an arbitrary string, `targetFingers` holds finger
indices 0–4, `pinchPair` holds tip nodes. -/
structure Exercise where
  type : String
  targetFingers : Option (List (Fin 5))
  pinchPair : Option (TipNode × TipNode)

/-- The failure result literal `{error, passed: false, score: 0, zone: RED}`. -/
structure ErrResult where
  error : String
  passed : Prop
  score : ℝ
  zone : Zone

/-- The dispatcher's result: one of the five strategy result shapes or the
failure shape. -/
inductive EvalResult
  | err (e : ErrResult)
  | isolationR (r : IsolationResult)
  | pinchR (r : PinchResult)
  | spreadR (r : SpreadResult)
  | fistR (r : FistResult)
  | flatR (r : FlatResult)

/-- A full snapshot from a raw list once the dispatcher's length check has
passed. -/
def lmOfList (l : List Point) (h : 21 ≤ l.length) : Lm := fun i =>
  l.get ⟨i.1, lt_of_lt_of_le i.isLt h⟩

/-- `evaluate(landmarks, exercise)`: rejects a null or short landmark array,
then switches on `exercise.type`; the absent optional descriptor fields
default to `[]` (`targetFingers || []`) and `[4, 8]` (`pinchPair || [4, 8]`);
an unknown type yields the failure result rather than a throw. -/
def evaluate (landmarks : Option (List Point)) (exercise : Exercise) : EvalResult :=
  match landmarks with
  | none => .err ⟨"Invalid landmarks", False, 0, Zone.RED⟩
  | some l =>
    if h : l.length < 21 then .err ⟨"Invalid landmarks", False, 0, Zone.RED⟩
    else
      let lm := lmOfList l (Nat.le_of_not_lt h)
      if exercise.type = "isolation" then
        .isolationR (evaluateIsolation lm (exercise.targetFingers.getD []))
      else if exercise.type = "pinch" then
        .pinchR (evaluatePinch lm (exercise.pinchPair.getD (tip4, tip8)))
      else if exercise.type = "spread" then .spreadR (evaluateSpread lm)
      else if exercise.type = "fist" then .fistR (evaluateFist lm)
      else if exercise.type = "flat" then .flatR (evaluateFlat lm)
      else .err ⟨"Unknown type", False, 0, Zone.RED⟩

/-- C1: the dispatcher is a total function (the embedding never throws) and,
on a null landmark array, a landmark array with fewer than 21 entries, or an
exercise type that is none of isolation/pinch/spread/fist/flat, it returns the
well-formed failure result `{error, passed: false, score: 0, zone: RED}`. -/
theorem evaluate_invalid_input_failure :
    (∀ ex : Exercise, evaluate none ex = .err ⟨"Invalid landmarks", False, 0, Zone.RED⟩)
    ∧ (∀ (l : List Point) (ex : Exercise), l.length < 21 →
        evaluate (some l) ex = .err ⟨"Invalid landmarks", False, 0, Zone.RED⟩)
    ∧ (∀ (l : List Point) (ex : Exercise),
        ex.type ∉ (["isolation", "pinch", "spread", "fist", "flat"] : List String) →
        ∃ e : String, evaluate (some l) ex = .err ⟨e, False, 0, Zone.RED⟩) := by
  refine ⟨fun ex => rfl, fun l ex h => ?_, fun l ex h => ?_⟩
  · simp only [evaluate]
    rw [dif_pos h]
  · simp only [evaluate]
    by_cases hl : l.length < 21
    · exact ⟨"Invalid landmarks", by rw [dif_pos hl]⟩
    · refine ⟨"Unknown type", ?_⟩
      rw [dif_neg hl]
      simp only [List.mem_cons, List.not_mem_nil, or_false] at h
      push_neg at h
      obtain ⟨h1, h2, h3, h4, h5⟩ := h
      rw [if_neg h1, if_neg h2, if_neg h3, if_neg h4, if_neg h5]

/-- Concrete instances of `evaluate_invalid_input_failure` discharging its
hypotheses: the empty landmark list and an unknown type `"wave"`. -/
theorem evaluate_invalid_input_failure_witness :
    (([] : List Point).length < 21
      ∧ evaluate (some []) ⟨"isolation", none, none⟩ =
        .err ⟨"Invalid landmarks", False, 0, Zone.RED⟩)
    ∧ (("wave" : String) ∉ (["isolation", "pinch", "spread", "fist", "flat"] : List String)
      ∧ ∃ e : String,
          evaluate (some (List.replicate 21 ⟨0, 0, 0⟩)) ⟨"wave", none, none⟩ =
            .err ⟨e, False, 0, Zone.RED⟩) :=
  ⟨⟨by decide, evaluate_invalid_input_failure.2.1 [] ⟨"isolation", none, none⟩ (by decide)⟩,
    ⟨by decide,
      evaluate_invalid_input_failure.2.2 (List.replicate 21 ⟨0, 0, 0⟩) ⟨"wave", none, none⟩
        (by decide)⟩⟩

/-- C9 (counterexample): `getHandFrame` does not fail on every input shorter
than 21 landmarks — on an 18-element array it silently proceeds and returns a
frame. -/
theorem getHandFrame_short_input_proceeds :
    (List.replicate 18 (⟨0, 0, 0⟩ : Point)).length < 21
    ∧ (getHandFrameL (List.replicate 18 (⟨0, 0, 0⟩ : Point))).isSome = true := by
  constructor
  · simp
  · rfl

/-- C9 (amended): `getHandFrame` performs no landmark-count validation of its
own; it fails (a JS `TypeError` on a missing element, not an
`InvalidInputError`) exactly when one of the landmark indices it reads (the
largest being 17) is absent, i.e. with fewer than 18 landmarks, and with
18–20 landmarks it silently proceeds; the < 21 check lives in `evaluate`. -/
theorem getHandFrameL_isSome_iff (l : List Point) :
    (getHandFrameL l).isSome = true ↔ 18 ≤ l.length := by
  constructor
  · intro h
    by_contra hlen
    push_neg at hlen
    have h17 : l[17]? = none := by
      rw [List.getElem?_eq_none]
      omega
    rw [getHandFrameL] at h
    rcases h0 : l[0]? with _ | w
    · rw [h0] at h
      simp at h
    · rcases h12 : l[12]? with _ | mt
      · rw [h0, h12] at h
        simp at h
      · rcases h5 : l[5]? with _ | im
        · rw [h0, h12, h5] at h
          simp at h
        · rw [h0, h12, h5, h17] at h
          simp at h
  · intro h
    rw [getHandFrameL,
      List.getElem?_eq_getElem (by omega : 0 < l.length),
      List.getElem?_eq_getElem (by omega : 12 < l.length),
      List.getElem?_eq_getElem (by omega : 5 < l.length),
      List.getElem?_eq_getElem (by omega : 17 < l.length),
      List.getElem?_eq_getElem (by omega : 9 < l.length),
      List.getElem?_eq_getElem (by omega : 13 < l.length)]
    rfl

/-- C10: absent optional descriptor fields are defaulted, not rejected —
`pinch` with no `pinchPair` behaves exactly as `pinchPair [4, 8]`, and
`isolation` with no `targetFingers` behaves exactly as the empty target list,
for which the boundaries fall back to the middle finger and the target-score
mean is 0, giving `overallScore` 0, zone RED and `passed` false. -/
theorem evaluate_default_fields :
    (∀ (l : Option (List Point)) (tf : Option (List (Fin 5))),
        evaluate l ⟨"pinch", tf, none⟩ = evaluate l ⟨"pinch", tf, some (tip4, tip8)⟩)
    ∧ (∀ (l : Option (List Point)) (pp : Option (TipNode × TipNode)),
        evaluate l ⟨"isolation", none, pp⟩ = evaluate l ⟨"isolation", some [], pp⟩)
    ∧ (∀ lm : Lm,
        isoMeanScore lm [] = 0
        ∧ (evaluateIsolation lm []).overallScore = 0
        ∧ (evaluateIsolation lm []).overallZone = Zone.RED
        ∧ ¬ (evaluateIsolation lm []).passed
        ∧ createBoundariesForTargets [] lm (getHandFrame lm)
            = createBoundaryForFinger 2 lm (getHandFrame lm)) := by
  refine ⟨fun l tf => rfl, fun l pp => rfl, fun lm => ?_⟩
  obtain ⟨hsc, hzn, hps⟩ := evaluateIsolation_characterization lm []
  have hmean : isoMeanScore lm [] = 0 := by
    rw [isoMeanScore, if_pos]
    rw [isoTargetList]
    simp
  have hpen : isoPenalizedMean lm [] = 0 := by
    rw [isoPenalizedMean, hmean]
    split_ifs <;> norm_num
  refine ⟨hmean, ?_, ?_, ?_, rfl⟩
  · rw [hsc, hpen]
  · rw [hzn, hpen, zoneFromScore]
    norm_num
  · rw [hps]
    rintro ⟨-, -, hge⟩
    rw [hpen] at hge
    norm_num at hge

/-- A score lies in the unit interval. -/
def scoreIn01 (s : ℝ) : Prop := 0 ≤ s ∧ s ≤ 1

/-- A zone is one of the four legal tags. -/
def zoneValid (z : Zone) : Prop :=
  z = Zone.GREEN ∨ z = Zone.BLUE ∨ z = Zone.YELLOW ∨ z = Zone.RED

/-- Every score field of a dispatcher result (overall and per finger) is in
[0, 1] and every zone field is a legal zone tag. -/
def resultWellFormed : EvalResult → Prop
  | .err e => scoreIn01 e.score ∧ zoneValid e.zone
  | .isolationR r =>
      scoreIn01 r.overallScore ∧ zoneValid r.overallZone
      ∧ (∀ t ∈ r.targets, scoreIn01 t.score ∧ zoneValid t.zone)
      ∧ (∀ n ∈ r.nonTargets, scoreIn01 n.score ∧ zoneValid n.zone)
      ∧ scoreIn01 r.thumb.score ∧ zoneValid r.thumb.zone
  | .pinchR r => scoreIn01 r.score ∧ zoneValid r.zone
  | .spreadR r =>
      scoreIn01 r.score ∧ zoneValid r.zone ∧ scoreIn01 r.extensionScore ∧ scoreIn01 r.gapScore
      ∧ (∀ fr ∈ r.fingerResults, scoreIn01 fr.score ∧ zoneValid fr.zone)
  | .fistR r =>
      scoreIn01 r.score ∧ zoneValid r.zone
      ∧ (∀ fr ∈ r.fingerResults, scoreIn01 fr.score ∧ zoneValid fr.zone)
  | .flatR r =>
      scoreIn01 r.score ∧ zoneValid r.zone ∧ scoreIn01 r.extensionScore
      ∧ scoreIn01 r.togetherScore
      ∧ (∀ fr ∈ r.fingerResults, scoreIn01 fr.score ∧ zoneValid fr.zone)

/-- Every inhabitant of the `Zone` type is a legal tag. -/
lemma zoneValid_all (z : Zone) : zoneValid z := by
  cases z
  · exact Or.inl rfl
  · exact Or.inr (Or.inl rfl)
  · exact Or.inr (Or.inr (Or.inl rfl))
  · exact Or.inr (Or.inr (Or.inr rfl))

/-- A list of unit-interval reals sums to something between 0 and its
length. -/
lemma sum_bounds_of_mem {l : List ℝ} (h : ∀ x ∈ l, scoreIn01 x) :
    0 ≤ l.sum ∧ l.sum ≤ (l.length : ℝ) := by
  induction l with
  | nil => simp
  | cons a t ih =>
    have ha := h a (by simp)
    have ht := ih (fun x hx => h x (by simp [hx]))
    simp only [List.sum_cons, List.length_cons]
    constructor
    · linarith [ha.1, ht.1]
    · push_cast
      linarith [ha.2, ht.2]

/-- The target-finger classifier's score is in [0, 1]. -/
lemma evaluateTargetFinger_score_mem (i : Fin 5) (lm : Lm) (frame : HandFrame) :
    scoreIn01 (evaluateTargetFinger i lm frame).score := by
  simp only [scoreIn01, evaluateTargetFinger]
  split_ifs with h1 h2 h3 h4
  · constructor
    · show (0 : ℝ) ≤ min (1.0 : ℝ) (0.85 +
        ((lm (fingerNodes i).mcp).y - (lm (fingerNodes i).tip).y) / frame.handLength)
      exact le_min (by norm_num) (by nlinarith [h1.1])
    · show min (1.0 : ℝ) (0.85 +
        ((lm (fingerNodes i).mcp).y - (lm (fingerNodes i).tip).y) / frame.handLength) ≤ 1
      exact le_trans (min_le_left _ _) (by norm_num)
  · exact ⟨by norm_num, by norm_num⟩
  · exact ⟨by norm_num, by norm_num⟩
  · exact ⟨by norm_num, by norm_num⟩
  · exact ⟨by norm_num, by norm_num⟩

/-- The thumb classifier's score is in [0, 1]. -/
lemma evaluateThumb_score_mem (lm : Lm) (frame : HandFrame) (b : Bool) :
    scoreIn01 (evaluateThumb lm frame b).score := by
  simp only [scoreIn01, evaluateThumb]
  split_ifs <;> constructor <;> norm_num

/-- The non-target classifier's score is in [0, 1]. -/
lemma evaluateNonTargetFinger_score_mem (i : Fin 5) (lm : Lm) (bd : Boundaries)
    (frame : HandFrame) : scoreIn01 (evaluateNonTargetFinger i lm bd frame).score := by
  simp only [scoreIn01, evaluateNonTargetFinger]
  split_ifs <;> constructor <;> norm_num

/-- The isolation result is well formed. -/
lemma evaluateIsolation_wf (lm : Lm) (ts : List (Fin 5)) :
    resultWellFormed (.isolationR (evaluateIsolation lm ts)) := by
  rw [resultWellFormed]
  obtain ⟨hsc, -, -⟩ := evaluateIsolation_characterization lm ts
  refine ⟨?_, zoneValid_all _, ?_, ?_, ?_, zoneValid_all _⟩
  · rw [hsc, isoPenalizedMean]
    have hm : scoreIn01 (isoMeanScore lm ts) := by
      rw [isoMeanScore]
      split_ifs with hnil
      · exact ⟨le_refl 0, by norm_num⟩
      · have hb := sum_bounds_of_mem (l := (isoTargetList ts).map (isoTargetScore lm)) ?_
        · have hlenpos : (0 : ℝ) < ((isoTargetList ts).length : ℝ) := by
            have : 0 < (isoTargetList ts).length := List.length_pos_iff_ne_nil.mpr hnil
            exact_mod_cast this
          rw [List.length_map] at hb
          constructor
          · exact div_nonneg hb.1 (le_of_lt hlenpos)
          · rw [div_le_one hlenpos]
            exact hb.2
        · intro x hx
          rcases List.mem_map.1 hx with ⟨i, _, rfl⟩
          rw [isoTargetScore]
          split_ifs
          · exact evaluateThumb_score_mem lm (getHandFrame lm) true
          · exact evaluateTargetFinger_score_mem i lm (getHandFrame lm)
    obtain ⟨hm1, hm2⟩ := hm
    split_ifs
    · exact ⟨mul_nonneg hm1 (by norm_num),
        le_trans (mul_le_mul_of_nonneg_right hm2 (by norm_num)) (by norm_num)⟩
    · exact ⟨mul_nonneg hm1 (by norm_num),
        le_trans (mul_le_mul_of_nonneg_right hm2 (by norm_num)) (by norm_num)⟩
    · exact ⟨hm1, hm2⟩
  · intro t ht
    rcases List.mem_map.1 ht with ⟨i, _, rfl⟩
    exact ⟨evaluateTargetFinger_score_mem i lm _, zoneValid_all _⟩
  · intro n hn
    rcases List.mem_map.1 hn with ⟨i, _, rfl⟩
    exact ⟨evaluateNonTargetFinger_score_mem i lm _ _, zoneValid_all _⟩
  · exact evaluateThumb_score_mem lm _ _

/-- The pinch result is well formed. -/
lemma evaluatePinch_wf (lm : Lm) (pp : TipNode × TipNode) :
    resultWellFormed (.pinchR (evaluatePinch lm pp)) := by
  rw [resultWellFormed]
  refine ⟨?_, zoneValid_all _⟩
  have hband : scoreIn01 (specPinchBand (pinchNormDist lm pp)).2 := by
    simp only [scoreIn01, specPinchBand]
    split_ifs <;> constructor <;> norm_num
  obtain ⟨hb1, hb2⟩ := hband
  show scoreIn01 (if _ then (specPinchBand (pinchNormDist lm pp)).2 * 0.7
    else (specPinchBand (pinchNormDist lm pp)).2)
  split_ifs <;>
    first
      | exact ⟨mul_nonneg hb1 (by norm_num),
          le_trans (mul_le_mul_of_nonneg_right hb2 (by norm_num)) (by norm_num)⟩
      | exact ⟨hb1, hb2⟩

/-- A list mean with positive denominator equal to the list length is in
[0, 1] when all entries are. -/
lemma mean_in01 {l : List ℝ} {c : ℝ} (hlen : (l.length : ℝ) = c) (hcpos : 0 < c)
    (h : ∀ x ∈ l, scoreIn01 x) : scoreIn01 (l.sum / c) := by
  have hb := sum_bounds_of_mem h
  rw [hlen] at hb
  refine ⟨div_nonneg hb.1 (le_of_lt hcpos), ?_⟩
  rw [div_le_one hcpos]
  exact hb.2

/-- A convex combination of two unit-interval values is in [0, 1]. -/
lemma combo_in01 {a b : ℝ} (wa wb : ℝ) (ha : scoreIn01 a) (hb : scoreIn01 b)
    (hwa : 0 ≤ wa) (hwb : 0 ≤ wb) (hsum : wa + wb = 1) : scoreIn01 (a * wa + b * wb) := by
  obtain ⟨ha1, ha2⟩ := ha
  obtain ⟨hb1, hb2⟩ := hb
  constructor
  · nlinarith [mul_nonneg ha1 hwa, mul_nonneg hb1 hwb]
  · nlinarith [mul_le_mul_of_nonneg_right ha2 hwa, mul_le_mul_of_nonneg_right hb2 hwb]

/-- The spread extension score is in [0, 1]. -/
lemma evaluateSpread_ext_mem (lm : Lm) : scoreIn01 (evaluateSpread lm).extensionScore := by
  simp only [evaluateSpread]
  refine mean_in01 (by simp) (by norm_num) ?_
  intro x hx
  rcases List.mem_map.1 hx with ⟨fr, hmem, rfl⟩
  rcases List.mem_map.1 hmem with ⟨i, _, rfl⟩
  split_ifs
  · exact evaluateThumb_score_mem lm (getHandFrame lm) true
  · exact evaluateTargetFinger_score_mem i lm (getHandFrame lm)

/-- The spread gap score is in [0, 1]. -/
lemma evaluateSpread_gap_mem (lm : Lm) : scoreIn01 (evaluateSpread lm).gapScore := by
  simp only [evaluateSpread]
  refine mean_in01 (by simp) (by norm_num) ?_
  intro x hx
  rcases List.mem_map.1 hx with ⟨g, _, rfl⟩
  split_ifs <;> exact ⟨by norm_num, by norm_num⟩

/-- The spread overall score is in [0, 1]. -/
lemma evaluateSpread_score_mem (lm : Lm) : scoreIn01 (evaluateSpread lm).score := by
  have he := evaluateSpread_ext_mem lm
  have hg := evaluateSpread_gap_mem lm
  show scoreIn01
    ((evaluateSpread lm).extensionScore * 0.5 + (evaluateSpread lm).gapScore * 0.5)
  exact combo_in01 0.5 0.5 he hg (by norm_num) (by norm_num) (by norm_num)

/-- The spread result is well formed. -/
lemma evaluateSpread_wf (lm : Lm) : resultWellFormed (.spreadR (evaluateSpread lm)) := by
  rw [resultWellFormed]
  refine ⟨evaluateSpread_score_mem lm, zoneValid_all _, evaluateSpread_ext_mem lm,
    evaluateSpread_gap_mem lm, ?_⟩
  intro fr hfr
  have hfr' : fr ∈ (List.finRange 5).map (fun i =>
      if i = 0 then
        FingerEval.thumbE
          { evaluateThumb lm (getHandFrame lm) true with
            finger := fingerName i, fingerIndex := i.1 }
      else
        FingerEval.targetE
          { evaluateTargetFinger i lm (getHandFrame lm) with
            finger := fingerName i, fingerIndex := i.1 }) := hfr
  rcases List.mem_map.1 hfr' with ⟨i, _, rfl⟩
  refine ⟨?_, zoneValid_all _⟩
  split_ifs
  · exact evaluateThumb_score_mem lm (getHandFrame lm) true
  · exact evaluateTargetFinger_score_mem i lm (getHandFrame lm)

/-- The fist overall score is in [0, 1]. -/
lemma evaluateFist_score_mem (lm : Lm) : scoreIn01 (evaluateFist lm).score := by
  simp only [evaluateFist]
  refine mean_in01 (by simp) (by norm_num) ?_
  intro x hx
  rcases List.mem_map.1 hx with ⟨fr, hmem, rfl⟩
  rcases List.mem_map.1 hmem with ⟨i, _, rfl⟩
  split_ifs <;> exact ⟨by norm_num, by norm_num⟩

/-- The fist result is well formed. -/
lemma evaluateFist_wf (lm : Lm) : resultWellFormed (.fistR (evaluateFist lm)) := by
  rw [resultWellFormed]
  refine ⟨evaluateFist_score_mem lm, zoneValid_all _, ?_⟩
  intro fr hfr
  have hfr' : fr ∈ (List.finRange 5).map (fun i =>
      let nodes := fingerNodes i
      let tip := lm nodes.tip
      let mcp := lm nodes.mcp
      let wrist := lm 0
      let tipBelowMcp := tip.y - mcp.y
      let normalizedCurl := tipBelowMcp / (getHandFrame lm).handLength
      let tipToWrist := distance tip wrist
      let mcpToWrist := distance mcp wrist
      let curlRatio' := tipToWrist / mcpToWrist
      if normalizedCurl > 0.08 ∧ curlRatio' < 0.9 then
        (⟨fingerName i, i.1, Zone.GREEN, 1.0, true⟩ : FistFinger)
      else if normalizedCurl > 0.02 ∧ curlRatio' < 1.0 then
        (⟨fingerName i, i.1, Zone.BLUE, 0.75, true⟩ : FistFinger)
      else if normalizedCurl > -0.05 ∧ curlRatio' < 1.1 then
        (⟨fingerName i, i.1, Zone.YELLOW, 0.50, true⟩ : FistFinger)
      else
        (⟨fingerName i, i.1, Zone.RED, 0.25, false⟩ : FistFinger)) := hfr
  rcases List.mem_map.1 hfr' with ⟨i, _, rfl⟩
  refine ⟨?_, zoneValid_all _⟩
  dsimp only
  split_ifs <;> exact ⟨by norm_num, by norm_num⟩

/-- The flat extension score is in [0, 1]. -/
lemma evaluateFlat_ext_mem (lm : Lm) : scoreIn01 (evaluateFlat lm).extensionScore := by
  simp only [evaluateFlat]
  refine mean_in01 (by simp) (by norm_num) ?_
  intro x hx
  rcases List.mem_map.1 hx with ⟨fr, hmem, rfl⟩
  rcases List.mem_map.1 hmem with ⟨i, _, rfl⟩
  split_ifs
  · exact evaluateThumb_score_mem lm (getHandFrame lm) true
  · exact evaluateTargetFinger_score_mem i lm (getHandFrame lm)

/-- The flat togetherness score is in [0, 1]. -/
lemma evaluateFlat_together_mem (lm : Lm) : scoreIn01 (evaluateFlat lm).togetherScore := by
  simp only [evaluateFlat]
  refine mean_in01 (by simp) (by norm_num) ?_
  intro x hx
  rcases List.mem_map.1 hx with ⟨g, _, rfl⟩
  split_ifs <;> exact ⟨by norm_num, by norm_num⟩

/-- The flat overall score is in [0, 1]. -/
lemma evaluateFlat_score_mem (lm : Lm) : scoreIn01 (evaluateFlat lm).score := by
  have he := evaluateFlat_ext_mem lm
  have hg := evaluateFlat_together_mem lm
  show scoreIn01
    ((evaluateFlat lm).extensionScore * 0.6 + (evaluateFlat lm).togetherScore * 0.4)
  exact combo_in01 0.6 0.4 he hg (by norm_num) (by norm_num) (by norm_num)

/-- The flat result is well formed. -/
lemma evaluateFlat_wf (lm : Lm) : resultWellFormed (.flatR (evaluateFlat lm)) := by
  rw [resultWellFormed]
  refine ⟨evaluateFlat_score_mem lm, zoneValid_all _, evaluateFlat_ext_mem lm,
    evaluateFlat_together_mem lm, ?_⟩
  intro fr hfr
  have hfr' : fr ∈ (List.finRange 5).map (fun i =>
      if i = 0 then
        FingerEval.thumbE { evaluateThumb lm (getHandFrame lm) true with finger := fingerName i }
      else
        FingerEval.targetE
          { evaluateTargetFinger i lm (getHandFrame lm) with finger := fingerName i }) := hfr
  rcases List.mem_map.1 hfr' with ⟨i, _, rfl⟩
  refine ⟨?_, zoneValid_all _⟩
  split_ifs
  · exact evaluateThumb_score_mem lm (getHandFrame lm) true
  · exact evaluateTargetFinger_score_mem i lm (getHandFrame lm)

/-- C8: for every input — the null array, arrays of any length, arbitrary
real-valued landmark coordinates (degenerate zero-length/width frames
included), and every exercise descriptor — every score field of the
dispatcher's result (overall and per finger) lies in [0, 1] and every zone
field is one of GREEN/BLUE/YELLOW/RED. -/
theorem evaluate_result_well_formed (landmarks : Option (List Point)) (ex : Exercise) :
    resultWellFormed (evaluate landmarks ex) := by
  have herr : ∀ e : String, resultWellFormed (.err ⟨e, False, 0, Zone.RED⟩) := fun e =>
    ⟨⟨le_refl 0, by norm_num⟩, zoneValid_all _⟩
  match landmarks with
  | none => exact herr _
  | some l =>
    simp only [evaluate]
    split_ifs
    · exact herr _
    · exact evaluateIsolation_wf _ _
    · exact evaluatePinch_wf _ _
    · exact evaluateSpread_wf _
    · exact evaluateFist_wf _
    · exact evaluateFlat_wf _
    · exact herr _
